import Mathlib

/-!
Verification of `api/exec/stack_manager.go`.

A shallow embedding of the stack manager of the `exec` package: the builder of
the docker command line (`prepareDockerCommandAndArgs`), the process runner
(`runCommandAndCaptureStdErr`) and the four operations `Login`, `Logout`,
`Deploy` and `Remove`.

Conventions of the embedding.

* Go strings are Lean `String`s and `[]string` is `List String`; `append` on a
  slice is list concatenation. Every slice built by `append(args, ...)` in the
  source is consumed by the runner before the next `append`, so sharing of the
  backing array is not observable.
* `runtime.GOOS` is a build constant of the Go toolchain; it is a parameter
  `goos` of the definitions that read it.
* Spawning a process is an effect. The outside world is a type `σ` together
  with a `Runner σ`, which tells for a world and an invocation what
  `exec.Cmd.Run` observes and what the world becomes. Operations thread an
  `Exec σ`, the world plus the log of the invocations made so far.
* The receivers and the `*portainer.Endpoint`, `*portainer.DockerHub` and
  `*portainer.Stack` arguments are taken to be non-nil.
-/

set_option linter.dupNamespace false

namespace StackManagerModel

/-! ## Go standard library: `path.Clean` and `path.Join` -/

/-- Inner loop of the `..` case of `path.Clean`: starting from write index `w`,
step back while `w > dotdot` and the byte at `w` is not a slash. -/
def backtrack (buf : List Char) (dotdot : Nat) : Nat → Nat
  | 0 => 0
  | w + 1 =>
    if w + 1 > dotdot ∧ buf.getD (w + 1) '/' ≠ '/' then backtrack buf dotdot w else w + 1

/-- Main loop of `path.Clean`. `rest` is the unread input (`path[r:]`), `out`
the bytes written so far (`out.w = out.length`), `dotdot` the index where `..`
must stop. Every round reads at least one byte, so `rest.length` rounds are
always enough. -/
def cleanLoop (rooted : Bool) : Nat → List Char → List Char → Nat → List Char
  | 0, _, out, _ => out
  | fuel + 1, rest, out, dotdot =>
    match rest with
    | [] => out
    | '/' :: t => cleanLoop rooted fuel t out dotdot
    | ['.'] => cleanLoop rooted fuel [] out dotdot
    | '.' :: '/' :: t => cleanLoop rooted fuel ('/' :: t) out dotdot
    | ['.', '.'] =>
      if out.length > dotdot then
        cleanLoop rooted fuel [] (out.take (backtrack out dotdot (out.length - 1))) dotdot
      else if !rooted then
        let out1 := (if out.length > 0 then out ++ ['/'] else out) ++ ['.', '.']
        cleanLoop rooted fuel [] out1 out1.length
      else cleanLoop rooted fuel [] out dotdot
    | '.' :: '.' :: '/' :: t =>
      if out.length > dotdot then
        cleanLoop rooted fuel ('/' :: t) (out.take (backtrack out dotdot (out.length - 1))) dotdot
      else if !rooted then
        let out1 := (if out.length > 0 then out ++ ['/'] else out) ++ ['.', '.']
        cleanLoop rooted fuel ('/' :: t) out1 out1.length
      else cleanLoop rooted fuel ('/' :: t) out dotdot
    | c :: t =>
      let out1 :=
        if (rooted && out.length != 1) || (!rooted && out.length != 0) then out ++ ['/'] else out
      cleanLoop rooted fuel ((c :: t).dropWhile (fun x => x != '/'))
        (out1 ++ (c :: t).takeWhile (fun x => x != '/')) dotdot

/-- Go `path.Clean`: the shortest path name equivalent to `path` by purely
lexical processing. -/
def pathClean (path : String) : String :=
  match path.data with
  | [] => "."
  | c :: t =>
    let rooted := c == '/'
    let out :=
      if rooted then cleanLoop true (t.length + 1) t ['/'] 1
      else cleanLoop false (t.length + 2) (c :: t) [] 0
    if out.length == 0 then "." else String.mk out

/-- Go `path.Join`: empty elements before the first non-empty one are ignored,
the rest is joined with slashes and cleaned; all elements empty gives `""`. -/
def pathJoin (elem : List String) : String :=
  match elem.dropWhile (fun e => e == "") with
  | [] => ""
  | es => pathClean ("/".intercalate es)

/-! ## Data model -/

/-- Modelled from the spec: `portainer.TLSConfiguration` is declared outside this
file; these are the five fields the builder reads (enabled flag, skip-verify
flag, CA certificate path, client certificate path, client key path). -/
structure TLSConfiguration where
  TLS : Bool
  TLSSkipVerify : Bool
  TLSCACertPath : String
  TLSCertPath : String
  TLSKeyPath : String
  deriving DecidableEq, Repr

/-- Modelled from the spec: `portainer.Endpoint` is declared outside this file;
a connection target with a URL and a TLS configuration. -/
structure Endpoint where
  URL : String
  TLSConfig : TLSConfiguration
  deriving DecidableEq, Repr

/-- Modelled from the spec: `portainer.Registry` is declared outside this file;
URL, username, password and an authentication-enabled flag. -/
structure Registry where
  URL : String
  Authentication : Bool
  Username : String
  Password : String
  deriving DecidableEq, Repr

/-- Modelled from the spec: `portainer.DockerHub` is declared outside this file;
a username/password/enabled triple for the public registry. -/
structure DockerHub where
  Authentication : Bool
  Username : String
  Password : String
  deriving DecidableEq, Repr

/-- Modelled from the spec: `portainer.Stack` is declared outside this file; a
name, a project directory path and an entry-point file name. -/
structure Stack where
  Name : String
  ProjectPath : String
  EntryPoint : String
  deriving DecidableEq, Repr

/-- Modelled from the spec: `portainer.Error` is declared outside this file; an
error value whose message is the text it was built from. -/
structure Error where
  text : String
  deriving DecidableEq, Repr

/-- The `Error()` method of `portainer.Error`: the message of the error. -/
def Error.Error (e : Error) : String := e.text

/-- The service type `StackManager`. -/
structure StackManager where
  binaryPath : String
  deriving DecidableEq, Repr

/-- The constructor `NewStackManager`. -/
def NewStackManager (binaryPath : String) : StackManager :=
  { binaryPath := binaryPath }

/-! ## The command builder -/

/-- The function `prepareDockerCommandAndArgs`; `goos` stands for `runtime.GOOS`. -/
def prepareDockerCommandAndArgs (goos : String) (binaryPath : String) (endpoint : Endpoint) :
    String × List String :=
  let command := pathJoin [binaryPath, "docker"]
  let command := if goos = "windows" then pathJoin [binaryPath, "docker.exe"] else command
  let args : List String := []
  let args := args ++ ["-H", endpoint.URL]
  let args :=
    if endpoint.TLSConfig.TLS then
      let args := args ++ ["--tls"]
      let args :=
        if !endpoint.TLSConfig.TLSSkipVerify then
          args ++ ["--tlsverify", "--tlscacert", endpoint.TLSConfig.TLSCACertPath]
        else args
      let args :=
        if endpoint.TLSConfig.TLSCertPath ≠ "" ∧ endpoint.TLSConfig.TLSKeyPath ≠ "" then
          args ++ ["--tlscert", endpoint.TLSConfig.TLSCertPath,
                   "--tlskey", endpoint.TLSConfig.TLSKeyPath]
        else args
      args
    else args
  (command, args)

/-! ## The process runner -/

/-- One spawned process: the executable path and the ordered argument list
handed to `exec.Command`. -/
structure Invocation where
  command : String
  args : List String
  deriving DecidableEq, Repr

/-- What became of the child process: it could not be started, or it ran and
exited with a status code. -/
inductive RunOutcome where
  | startFailed
  | exited (code : Nat)
  deriving DecidableEq, Repr

/-- What `exec.Cmd.Run` observes for a command whose `Stderr` is a buffer: the
fate of the process and the bytes it wrote to standard error. -/
structure ProcResult where
  outcome : RunOutcome
  stderr : String
  deriving DecidableEq, Repr

/-- The outside world as seen by the stack manager: for a world state and an
invocation, the observation made and the next world state. -/
abbrev Runner (σ : Type) := σ → Invocation → ProcResult × σ

/-- Execution state: the world and the log of the invocations made so far. -/
structure Exec (σ : Type) where
  world : σ
  trace : List Invocation
  deriving DecidableEq

/-- The error value of `exec.Cmd.Run`: `nil` (here `none`) exactly when the
process started and exited with status zero. -/
def cmdRunErr : RunOutcome → Option String
  | .startFailed => some "exec: start failed"
  | .exited 0 => none
  | .exited (n + 1) => some ("exit status " ++ toString (n + 1))

/-- The function `runCommandAndCaptureStdErr`. -/
def runCommandAndCaptureStdErr {σ : Type} (run : Runner σ) (command : String)
    (args : List String) (s : Exec σ) : Option Error × Exec σ :=
  let cmd : Invocation := { command := command, args := args }
  let r := run s.world cmd
  let stderr := r.1.stderr
  let s1 : Exec σ := { world := r.2, trace := s.trace ++ [cmd] }
  match cmdRunErr r.1.outcome with
  | some _ => (some (Error.mk stderr), s1)
  | none => (none, s1)

/-! ## The operations -/

/-- The `for _, registry := range registries` loop of `Login`. The result is
`some err` when the loop body executed `return err`. -/
def loginRegistries {σ : Type} (run : Runner σ) (command : String) (args : List String) :
    List Registry → Exec σ → Option Error × Exec σ
  | [], s => (none, s)
  | registry :: rest, s =>
    if registry.Authentication then
      let registryArgs :=
        args ++ ["login", "--username", registry.Username,
                 "--password", registry.Password, registry.URL]
      match runCommandAndCaptureStdErr run command registryArgs s with
      | (some err, s1) => (some err, s1)
      | (none, s1) => loginRegistries run command args rest s1
    else loginRegistries run command args rest s

/-- The method `StackManager.Login`. -/
def Login {σ : Type} (run : Runner σ) (goos : String) (manager : StackManager)
    (dockerhub : DockerHub) (registries : List Registry) (endpoint : Endpoint) (s : Exec σ) :
    Option Error × Exec σ :=
  let (command, args) := prepareDockerCommandAndArgs goos manager.binaryPath endpoint
  match loginRegistries run command args registries s with
  | (some err, s1) => (some err, s1)
  | (none, s1) =>
    if dockerhub.Authentication then
      let dockerhubArgs :=
        args ++ ["login", "--username", dockerhub.Username, "--password", dockerhub.Password]
      match runCommandAndCaptureStdErr run command dockerhubArgs s1 with
      | (some err, s2) => (some err, s2)
      | (none, s2) => (none, s2)
    else (none, s1)

/-- The method `StackManager.Logout`. -/
def Logout {σ : Type} (run : Runner σ) (goos : String) (manager : StackManager)
    (endpoint : Endpoint) (s : Exec σ) : Option Error × Exec σ :=
  let (command, args) := prepareDockerCommandAndArgs goos manager.binaryPath endpoint
  let args := args ++ ["logout"]
  runCommandAndCaptureStdErr run command args s

/-- The method `StackManager.Deploy`. -/
def Deploy {σ : Type} (run : Runner σ) (goos : String) (manager : StackManager)
    (stack : Stack) (endpoint : Endpoint) (s : Exec σ) : Option Error × Exec σ :=
  let stackFilePath := pathJoin [stack.ProjectPath, stack.EntryPoint]
  let (command, args) := prepareDockerCommandAndArgs goos manager.binaryPath endpoint
  let args := args ++ ["stack", "deploy", "--with-registry-auth", "--compose-file",
                       stackFilePath, stack.Name]
  runCommandAndCaptureStdErr run command args s

/-- The method `StackManager.Remove`. -/
def Remove {σ : Type} (run : Runner σ) (goos : String) (manager : StackManager)
    (stack : Stack) (endpoint : Endpoint) (s : Exec σ) : Option Error × Exec σ :=
  let (command, args) := prepareDockerCommandAndArgs goos manager.binaryPath endpoint
  let args := args ++ ["stack", "rm", stack.Name]
  runCommandAndCaptureStdErr run command args s

/-! ## Vocabulary of the statements -/

/-- The observations made when the invocations of a list are performed one
after the other, starting in world `w`. -/
def outcomes {σ : Type} (run : Runner σ) : σ → List Invocation → List ProcResult
  | _, [] => []
  | w, i :: is => (run w i).1 :: outcomes run (run w i).2 is

/-- The world reached after the invocations of a list have been performed one
after the other, starting in world `w`. -/
def worldAfter {σ : Type} (run : Runner σ) : σ → List Invocation → σ
  | w, [] => w
  | w, i :: is => worldAfter run (run w i).2 is

/-- The login invocation of one registry credential on a base command line. -/
def registryLogin (command : String) (base : List String) (registry : Registry) : Invocation :=
  { command := command,
    args := base ++ ["login", "--username", registry.Username,
                     "--password", registry.Password, registry.URL] }

/-- The login invocations of the authentication-enabled registries of a list,
in list order. -/
def registryLogins (command : String) (base : List String) (registries : List Registry) :
    List Invocation :=
  (registries.filter (fun r => r.Authentication)).map (registryLogin command base)

/-- The login invocation of the hub credential on a base command line. -/
def hubLogin (command : String) (base : List String) (dockerhub : DockerHub) : Invocation :=
  { command := command,
    args := base ++ ["login", "--username", dockerhub.Username,
                     "--password", dockerhub.Password] }

/-- A runner for examples: the world is the number of processes spawned so far;
the process numbered `failAt` exits with status 1 and writes `msg` to standard
error, every other process exits with status 0 and writes nothing. -/
def scriptedRunner (failAt : Nat) (msg : String) : Runner Nat :=
  fun n _ => (if n = failAt then ⟨.exited 1, msg⟩ else ⟨.exited 0, ""⟩, n + 1)

/-! ## Sanity checks of the embedding -/

theorem length_dropWhile_le {α : Type} (p : α → Bool) (l : List α) :
    (l.dropWhile p).length ≤ l.length := by
  induction l with
  | nil => simp
  | cons a l ih =>
    rw [List.dropWhile_cons]
    split
    · exact Nat.le_succ_of_le ih
    · exact Nat.le_refl _

/-- One more round than the length of the unread input changes nothing: the loop
of `path.Clean` has stopped by then. -/
theorem cleanLoop_fuel (rooted : Bool) (fuel : Nat) :
    ∀ (rest out : List Char) (dotdot : Nat), rest.length ≤ fuel →
      cleanLoop rooted (fuel + 1) rest out dotdot = cleanLoop rooted fuel rest out dotdot := by
  induction fuel with
  | zero =>
    intro rest out dotdot h
    have hr : rest = [] := List.length_eq_zero.mp (Nat.le_zero.mp h)
    subst hr
    simp [cleanLoop]
  | succ n ih =>
    intro rest out dotdot h
    conv_lhs => unfold cleanLoop
    conv_rhs => unfold cleanLoop
    split
    · rfl
    · rw [ih _ _ _ (by simp at h; omega)]
    · rw [ih _ _ _ (by simp)]
    · rw [ih _ _ _ (by simp at h ⊢; omega)]
    · have e : ∀ o d, cleanLoop rooted (n + 1) [] o d = cleanLoop rooted n [] o d :=
        fun o d => ih [] o d (Nat.zero_le n)
      simp only [e]
    · rename_i t
      simp only [List.length_cons] at h
      have e : ∀ o d, cleanLoop rooted (n + 1) ('/' :: t) o d = cleanLoop rooted n ('/' :: t) o d :=
        fun o d => ih ('/' :: t) o d (by simp only [List.length_cons]; omega)
      simp only [e]
    · rename_i c t h1 h2 h3 h4 h5
      have hc : (c != '/') = true := by
        simp only [bne_iff_ne, ne_eq]
        intro hce
        exact h1 hce
      have hlen : ((c :: t).dropWhile (fun x => x != '/')).length ≤ n := by
        rw [List.dropWhile_cons, if_pos hc]
        have := length_dropWhile_le (fun x => x != '/') t
        simp only [List.length_cons] at h
        omega
      simp only [ih _ _ _ hlen]

/-- The result of the loop of `path.Clean` is the same for every number of
rounds that is at least the length of the unread input: the loop always
runs to its end. -/
theorem cleanLoop_terminates (rooted : Bool) (rest out : List Char) (dotdot : Nat)
    (extra : Nat) :
    cleanLoop rooted (rest.length + extra) rest out dotdot =
      cleanLoop rooted rest.length rest out dotdot := by
  induction extra with
  | zero => rfl
  | succ k ih =>
    rw [← Nat.add_assoc, cleanLoop_fuel rooted (rest.length + k) rest out dotdot
      (Nat.le_add_right _ _), ih]

/-- The model of `path.Join` on the inputs of the Go documentation and on
typical binary and project paths. -/
theorem pathJoin_examples :
    pathJoin ["a", "b", "c"] = "a/b/c" ∧ pathJoin ["a", "b/c"] = "a/b/c" ∧
    pathJoin ["a/b", "c"] = "a/b/c" ∧ pathJoin ["a/b", "../../../xyz"] = "../xyz" ∧
    pathJoin ["", ""] = "" ∧ pathJoin ["a", ""] = "a" ∧ pathJoin ["", "a"] = "a" ∧
    pathJoin ["/usr/bin/", "docker"] = "/usr/bin/docker" ∧
    pathJoin ["/data/compose/3", "docker-compose.yml"] = "/data/compose/3/docker-compose.yml" ∧
    pathJoin ["/data//compose/./3/..", "/stack.yml"] = "/data/compose/stack.yml" := by
  decide

/-- A deployment on a TLS endpoint, run against a runner on which every
process succeeds. -/
theorem Deploy_example :
    Deploy (scriptedRunner 9 "") "linux" (NewStackManager "/usr/bin")
        ⟨"web", "/data/compose/3", "docker-compose.yml"⟩
        ⟨"tcp://10.0.0.1:2376", ⟨true, false, "/ca.pem", "/cert.pem", "/key.pem"⟩⟩ ⟨0, []⟩ =
      (none,
       ⟨1, [⟨"/usr/bin/docker",
             ["-H", "tcp://10.0.0.1:2376", "--tls", "--tlsverify", "--tlscacert", "/ca.pem",
              "--tlscert", "/cert.pem", "--tlskey", "/key.pem", "stack", "deploy",
              "--with-registry-auth", "--compose-file", "/data/compose/3/docker-compose.yml",
              "web"]⟩]⟩) := by
  decide

/-! ## Lemmas on the builder -/

theorem prepare_args_eq (goos binaryPath : String) (endpoint : Endpoint) :
    (prepareDockerCommandAndArgs goos binaryPath endpoint).2 =
      ["-H", endpoint.URL] ++
        (if endpoint.TLSConfig.TLS then
          ["--tls"] ++
            (if endpoint.TLSConfig.TLSSkipVerify then []
             else ["--tlsverify", "--tlscacert", endpoint.TLSConfig.TLSCACertPath]) ++
            (if endpoint.TLSConfig.TLSCertPath ≠ "" ∧ endpoint.TLSConfig.TLSKeyPath ≠ "" then
              ["--tlscert", endpoint.TLSConfig.TLSCertPath,
               "--tlskey", endpoint.TLSConfig.TLSKeyPath]
             else [])
         else []) := by
  unfold prepareDockerCommandAndArgs
  cases endpoint.TLSConfig.TLS <;> cases endpoint.TLSConfig.TLSSkipVerify <;>
    by_cases h : endpoint.TLSConfig.TLSCertPath ≠ "" ∧ endpoint.TLSConfig.TLSKeyPath ≠ "" <;>
    simp [h]

/-! ## Claims on the builder -/

/-- C1: with TLS disabled the argument sequence is exactly the host flag and
the URL, two elements, whatever the other TLS settings are. -/
theorem prepare_args_tls_disabled (goos binaryPath : String) (endpoint : Endpoint)
    (h : endpoint.TLSConfig.TLS = false) :
    (prepareDockerCommandAndArgs goos binaryPath endpoint).2 = ["-H", endpoint.URL] ∧
    (prepareDockerCommandAndArgs goos binaryPath endpoint).2.length = 2 := by
  rw [prepare_args_eq, h]
  simp

theorem prepare_args_tls_disabled_witness :
    (prepareDockerCommandAndArgs "linux" "/usr/bin"
        ⟨"tcp://10.0.0.1:2375", ⟨false, false, "/ca.pem", "/cert.pem", "/key.pem"⟩⟩).2
      = ["-H", "tcp://10.0.0.1:2375"] ∧
    (prepareDockerCommandAndArgs "linux" "/usr/bin"
        ⟨"tcp://10.0.0.1:2375", ⟨false, false, "/ca.pem", "/cert.pem", "/key.pem"⟩⟩).2.length
      = 2 :=
  prepare_args_tls_disabled "linux" "/usr/bin"
    ⟨"tcp://10.0.0.1:2375", ⟨false, false, "/ca.pem", "/cert.pem", "/key.pem"⟩⟩ rfl

/-- C2, as stated, fails: with TLS disabled and both client paths non-empty the
argument sequence holds no client-certificate or client-key flag. -/
theorem prepare_args_cert_key_counterexample :
    ¬ ((["--tlscert", "/cert.pem", "--tlskey", "/key.pem"] <:+:
          (prepareDockerCommandAndArgs "linux" "/usr/bin"
            ⟨"tcp://10.0.0.1:2375", ⟨false, false, "", "/cert.pem", "/key.pem"⟩⟩).2) ↔
        (("/cert.pem" : String) ≠ "" ∧ ("/key.pem" : String) ≠ "")) := by
  rw [prepare_args_eq]
  simp [List.infix_cons_iff, List.prefix_cons_iff]

/-- C2, amended: the client-certificate and client-key flag/path pairs occur (as
four consecutive elements) in the argument sequence if and only if TLS is
enabled and both the certificate path and the key path are non-empty. -/
theorem prepare_args_cert_key_iff (goos binaryPath : String) (endpoint : Endpoint) :
    (["--tlscert", endpoint.TLSConfig.TLSCertPath, "--tlskey", endpoint.TLSConfig.TLSKeyPath]
        <:+: (prepareDockerCommandAndArgs goos binaryPath endpoint).2) ↔
      (endpoint.TLSConfig.TLS = true ∧ endpoint.TLSConfig.TLSCertPath ≠ "" ∧
        endpoint.TLSConfig.TLSKeyPath ≠ "") := by
  rw [prepare_args_eq]
  cases endpoint.TLSConfig.TLS <;> cases endpoint.TLSConfig.TLSSkipVerify <;>
    by_cases hc : endpoint.TLSConfig.TLSCertPath = "" <;>
    by_cases hk : endpoint.TLSConfig.TLSKeyPath = "" <;>
    simp [hc, hk, List.infix_cons_iff, List.prefix_cons_iff]

/-- C3, as stated, fails: an endpoint whose URL is the string `--tlsverify` has
that string as an element of its argument sequence although verification is
skipped. -/
theorem prepare_args_skip_verify_counterexample :
    ¬ ("--tls" ∈ (prepareDockerCommandAndArgs "linux" "/usr/bin"
          ⟨"--tlsverify", ⟨true, true, "", "", ""⟩⟩).2 ∧
       "--tlsverify" ∉ (prepareDockerCommandAndArgs "linux" "/usr/bin"
          ⟨"--tlsverify", ⟨true, true, "", "", ""⟩⟩).2 ∧
       "--tlscacert" ∉ (prepareDockerCommandAndArgs "linux" "/usr/bin"
          ⟨"--tlsverify", ⟨true, true, "", "", ""⟩⟩).2) := by
  rw [prepare_args_eq]
  simp

/-- C3, amended: with TLS enabled and verification skipped the argument sequence
contains `--tls`, and `--tlsverify` (likewise `--tlscacert`) is an element of it
exactly when the URL is that string, or both client paths are non-empty and one
of them is that string; the builder adds neither flag itself. -/
theorem prepare_args_skip_verify (goos binaryPath : String) (endpoint : Endpoint)
    (htls : endpoint.TLSConfig.TLS = true) (hskip : endpoint.TLSConfig.TLSSkipVerify = true) :
    "--tls" ∈ (prepareDockerCommandAndArgs goos binaryPath endpoint).2 ∧
    ("--tlsverify" ∈ (prepareDockerCommandAndArgs goos binaryPath endpoint).2 ↔
      (endpoint.URL = "--tlsverify" ∨
        (endpoint.TLSConfig.TLSCertPath ≠ "" ∧ endpoint.TLSConfig.TLSKeyPath ≠ "" ∧
          (endpoint.TLSConfig.TLSCertPath = "--tlsverify" ∨
            endpoint.TLSConfig.TLSKeyPath = "--tlsverify")))) ∧
    ("--tlscacert" ∈ (prepareDockerCommandAndArgs goos binaryPath endpoint).2 ↔
      (endpoint.URL = "--tlscacert" ∨
        (endpoint.TLSConfig.TLSCertPath ≠ "" ∧ endpoint.TLSConfig.TLSKeyPath ≠ "" ∧
          (endpoint.TLSConfig.TLSCertPath = "--tlscacert" ∨
            endpoint.TLSConfig.TLSKeyPath = "--tlscacert")))) := by
  rw [prepare_args_eq, htls, hskip]
  by_cases hc : endpoint.TLSConfig.TLSCertPath = "" <;>
    by_cases hk : endpoint.TLSConfig.TLSKeyPath = "" <;>
    simp [hc, hk, eq_comm]

theorem prepare_args_skip_verify_witness :
    "--tls" ∈ (prepareDockerCommandAndArgs "linux" "/usr/bin"
        ⟨"tcp://10.0.0.1:2376", ⟨true, true, "/ca.pem", "/cert.pem", "/key.pem"⟩⟩).2 ∧
    "--tlsverify" ∉ (prepareDockerCommandAndArgs "linux" "/usr/bin"
        ⟨"tcp://10.0.0.1:2376", ⟨true, true, "/ca.pem", "/cert.pem", "/key.pem"⟩⟩).2 ∧
    "--tlscacert" ∉ (prepareDockerCommandAndArgs "linux" "/usr/bin"
        ⟨"tcp://10.0.0.1:2376", ⟨true, true, "/ca.pem", "/cert.pem", "/key.pem"⟩⟩).2 := by
  have h := prepare_args_skip_verify "linux" "/usr/bin"
    ⟨"tcp://10.0.0.1:2376", ⟨true, true, "/ca.pem", "/cert.pem", "/key.pem"⟩⟩ rfl rfl
  refine ⟨h.1, ?_, ?_⟩
  · rw [h.2.1]; decide
  · rw [h.2.2]; decide

/-- C4: with TLS enabled and verification not skipped the argument sequence
starts with the host flag, the URL, `--tls`, `--tlsverify`, `--tlscacert` and
the CA certificate path, for every CA path, the empty one included. -/
theorem prepare_args_verify (goos binaryPath : String) (endpoint : Endpoint)
    (htls : endpoint.TLSConfig.TLS = true) (hskip : endpoint.TLSConfig.TLSSkipVerify = false) :
    ["-H", endpoint.URL, "--tls", "--tlsverify", "--tlscacert",
        endpoint.TLSConfig.TLSCACertPath] <+:
      (prepareDockerCommandAndArgs goos binaryPath endpoint).2 := by
  rw [prepare_args_eq, htls, hskip]
  by_cases h : endpoint.TLSConfig.TLSCertPath ≠ "" ∧ endpoint.TLSConfig.TLSKeyPath ≠ ""
  · exact ⟨["--tlscert", endpoint.TLSConfig.TLSCertPath,
        "--tlskey", endpoint.TLSConfig.TLSKeyPath], by simp [h]⟩
  · exact ⟨[], by simp [h]⟩

theorem prepare_args_verify_witness :
    ["-H", "tcp://10.0.0.1:2376", "--tls", "--tlsverify", "--tlscacert", ""] <+:
      (prepareDockerCommandAndArgs "linux" "/usr/bin"
        ⟨"tcp://10.0.0.1:2376", ⟨true, false, "", "/cert.pem", "/key.pem"⟩⟩).2 :=
  prepare_args_verify "linux" "/usr/bin"
    ⟨"tcp://10.0.0.1:2376", ⟨true, false, "", "/cert.pem", "/key.pem"⟩⟩ rfl rfl

/-- C9: the executable path is the binary path joined with `docker.exe` when the
platform identifier is `windows` and with `docker` for every other identifier,
and it is the same for all endpoints. -/
theorem prepare_command (goos binaryPath : String) (endpoint : Endpoint) :
    (goos = "windows" →
      (prepareDockerCommandAndArgs goos binaryPath endpoint).1 =
        pathJoin [binaryPath, "docker.exe"]) ∧
    (goos ≠ "windows" →
      (prepareDockerCommandAndArgs goos binaryPath endpoint).1 =
        pathJoin [binaryPath, "docker"]) ∧
    (∀ other : Endpoint,
      (prepareDockerCommandAndArgs goos binaryPath other).1 =
        (prepareDockerCommandAndArgs goos binaryPath endpoint).1) := by
  unfold prepareDockerCommandAndArgs
  by_cases h : goos = "windows" <;> simp [h]

theorem prepare_command_witness :
    (prepareDockerCommandAndArgs "windows" "C:/portainer"
        ⟨"tcp://10.0.0.1:2375", ⟨false, false, "", "", ""⟩⟩).1 = "C:/portainer/docker.exe" ∧
    (prepareDockerCommandAndArgs "linux" "/usr/bin/"
        ⟨"tcp://10.0.0.1:2375", ⟨false, false, "", "", ""⟩⟩).1 = "/usr/bin/docker" :=
  ⟨((prepare_command "windows" "C:/portainer"
        ⟨"tcp://10.0.0.1:2375", ⟨false, false, "", "", ""⟩⟩).1 rfl).trans (by decide),
   ((prepare_command "linux" "/usr/bin/"
        ⟨"tcp://10.0.0.1:2375", ⟨false, false, "", "", ""⟩⟩).2.1 (by decide)).trans (by decide)⟩

/-! ## Lemmas on the runner and on the login loop -/

theorem cmdRunErr_eq_none_iff (o : RunOutcome) : cmdRunErr o = none ↔ o = .exited 0 := by
  cases o with
  | startFailed => simp [cmdRunErr]
  | exited n => cases n <;> simp [cmdRunErr]

theorem runCommand_succeeds {σ : Type} (run : Runner σ) (command : String) (args : List String)
    (s : Exec σ) (h : (run s.world ⟨command, args⟩).1.outcome = .exited 0) :
    runCommandAndCaptureStdErr run command args s =
      (none, ⟨(run s.world ⟨command, args⟩).2, s.trace ++ [⟨command, args⟩]⟩) := by
  simp [runCommandAndCaptureStdErr, h, cmdRunErr]

theorem runCommand_fails {σ : Type} (run : Runner σ) (command : String) (args : List String)
    (s : Exec σ) (h : (run s.world ⟨command, args⟩).1.outcome ≠ .exited 0) :
    runCommandAndCaptureStdErr run command args s =
      (some ⟨(run s.world ⟨command, args⟩).1.stderr⟩,
        ⟨(run s.world ⟨command, args⟩).2, s.trace ++ [⟨command, args⟩]⟩) := by
  have hne : cmdRunErr (run s.world ⟨command, args⟩).1.outcome ≠ none := by
    rw [Ne, cmdRunErr_eq_none_iff]; exact h
  cases hc : cmdRunErr (run s.world ⟨command, args⟩).1.outcome with
  | none => exact absurd hc hne
  | some e => simp [runCommandAndCaptureStdErr, hc]

theorem registryLogins_cons (command : String) (base : List String) (r : Registry)
    (rest : List Registry) :
    registryLogins command base (r :: rest) =
      if r.Authentication then registryLogin command base r :: registryLogins command base rest
      else registryLogins command base rest := by
  cases h : r.Authentication <;> simp [registryLogins, List.filter, h]

/-- When every login of the authentication-enabled registries succeeds, the loop
runs to its end, having made exactly those logins in list order. -/
theorem loginRegistries_all_succeed {σ : Type} (run : Runner σ) (command : String)
    (base : List String) (registries : List Registry) (s : Exec σ)
    (hok : ∀ p ∈ outcomes run s.world (registryLogins command base registries),
      p.outcome = .exited 0) :
    loginRegistries run command base registries s =
      (none, ⟨worldAfter run s.world (registryLogins command base registries),
        s.trace ++ registryLogins command base registries⟩) := by
  induction registries generalizing s with
  | nil => simp [loginRegistries, registryLogins, worldAfter]
  | cons r rest ih =>
    rw [registryLogins_cons] at hok ⊢
    unfold loginRegistries
    cases hr : r.Authentication with
    | false =>
      simp only [hr, Bool.false_eq_true, if_false] at hok ⊢
      exact ih s hok
    | true =>
      simp only [hr, if_true, outcomes, List.mem_cons, forall_eq_or_imp] at hok ⊢
      have h1 := runCommand_succeeds run command
        (base ++ ["login", "--username", r.Username, "--password", r.Password, r.URL]) s hok.1
      simp only [h1]
      rw [ih _ hok.2]
      simp [worldAfter, registryLogin]

/-- When the logins before registry `r` succeed and the login of `r` fails, the
loop stops at `r` with the error of that login. -/
theorem loginRegistries_first_failure {σ : Type} (run : Runner σ) (command : String)
    (base : List String) (pre : List Registry) (r : Registry) (post : List Registry)
    (s : Exec σ) (hauth : r.Authentication = true)
    (hok : ∀ p ∈ outcomes run s.world (registryLogins command base pre),
      p.outcome = .exited 0)
    (hfail : (run (worldAfter run s.world (registryLogins command base pre))
      (registryLogin command base r)).1.outcome ≠ .exited 0) :
    loginRegistries run command base (pre ++ r :: post) s =
      (some ⟨(run (worldAfter run s.world (registryLogins command base pre))
          (registryLogin command base r)).1.stderr⟩,
        ⟨(run (worldAfter run s.world (registryLogins command base pre))
          (registryLogin command base r)).2,
         s.trace ++ registryLogins command base pre ++ [registryLogin command base r]⟩) := by
  induction pre generalizing s with
  | nil =>
    simp only [registryLogins, List.filter, List.map, worldAfter, List.nil_append,
      List.append_nil] at hfail ⊢
    unfold loginRegistries
    simp only [hauth, if_true]
    have h1 := runCommand_fails run command
      (base ++ ["login", "--username", r.Username, "--password", r.Password, r.URL]) s hfail
    simp only [h1]
    simp [registryLogin]
  | cons q rest ih =>
    rw [registryLogins_cons] at hok hfail ⊢
    rw [List.cons_append]
    unfold loginRegistries
    cases hq : q.Authentication with
    | false =>
      simp only [hq, Bool.false_eq_true, if_false] at hok hfail ⊢
      exact ih s hok hfail
    | true =>
      simp only [hq, if_true, outcomes, List.mem_cons, forall_eq_or_imp, worldAfter]
        at hok hfail ⊢
      have h1 := runCommand_succeeds run command
        (base ++ ["login", "--username", q.Username, "--password", q.Password, q.URL]) s hok.1
      simp only [h1]
      rw [ih _ hok.2 hfail]
      simp [registryLogin]

theorem outcomes_append {σ : Type} (run : Runner σ) (w : σ) (xs ys : List Invocation) :
    outcomes run w (xs ++ ys) = outcomes run w xs ++ outcomes run (worldAfter run w xs) ys := by
  induction xs generalizing w with
  | nil => simp [outcomes, worldAfter]
  | cons x xs ih => simp [outcomes, worldAfter, ih]

theorem worldAfter_append {σ : Type} (run : Runner σ) (w : σ) (xs ys : List Invocation) :
    worldAfter run w (xs ++ ys) = worldAfter run (worldAfter run w xs) ys := by
  induction xs generalizing w with
  | nil => simp [worldAfter]
  | cons x xs ih => simp [worldAfter, ih]

theorem hubLogin_not_mem_registryLogins (command : String) (base : List String)
    (dockerhub : DockerHub) (registries : List Registry) :
    hubLogin command base dockerhub ∉ registryLogins command base registries := by
  intro h
  simp only [registryLogins, List.mem_map] at h
  obtain ⟨r, _, hr⟩ := h
  have hlen := congrArg (fun i => i.args.length) hr
  simp [registryLogin, hubLogin] at hlen

theorem runCommand_eq {σ : Type} (run : Runner σ) (command : String) (args : List String)
    (s : Exec σ) :
    runCommandAndCaptureStdErr run command args s =
      (if (run s.world ⟨command, args⟩).1.outcome = .exited 0 then none
        else some ⟨(run s.world ⟨command, args⟩).1.stderr⟩,
       ⟨(run s.world ⟨command, args⟩).2, s.trace ++ [⟨command, args⟩]⟩) := by
  by_cases h : (run s.world ⟨command, args⟩).1.outcome = .exited 0
  · rw [runCommand_succeeds run command args s h, if_pos h]
  · rw [runCommand_fails run command args s h, if_neg h]

/-! ## Claims on the runner and the operations -/

/-- C8: the runner returns no error exactly when the process started and exited
with status zero; on every other run (start failure or non-zero exit) it
returns an error whose message is the captured standard-error text, unchanged,
the empty text included. -/
theorem runCommandAndCaptureStdErr_error {σ : Type} (run : Runner σ) (command : String)
    (args : List String) (s : Exec σ) :
    ((runCommandAndCaptureStdErr run command args s).1 = none ↔
      (run s.world ⟨command, args⟩).1.outcome = .exited 0) ∧
    ((run s.world ⟨command, args⟩).1.outcome ≠ .exited 0 →
      ∃ e : Error, (runCommandAndCaptureStdErr run command args s).1 = some e ∧
        e.Error = (run s.world ⟨command, args⟩).1.stderr) := by
  rw [runCommand_eq]
  by_cases h : (run s.world ⟨command, args⟩).1.outcome = .exited 0
  · simp [h]
  · simp [h, Error.Error]

theorem runCommandAndCaptureStdErr_error_witness :
    ∃ e : Error,
      (runCommandAndCaptureStdErr (scriptedRunner 0 "connection refused") "/usr/bin/docker"
        ["-H", "tcp://10.0.0.1:2375", "logout"] ⟨0, []⟩).1 = some e ∧
      e.Error = "connection refused" :=
  (runCommandAndCaptureStdErr_error (scriptedRunner 0 "connection refused") "/usr/bin/docker"
    ["-H", "tcp://10.0.0.1:2375", "logout"] ⟨0, []⟩).2 (by decide)

/-- C5: when the logins of the authentication-enabled registries before `r`
succeed and the login of the authentication-enabled registry `r` fails, `Login`
returns the error of that login (its standard-error text); the invocations it
made are the logins of the authentication-enabled registries up to and
including `r`, in list order, and nothing else: no login for a later registry
and no hub login. -/
theorem Login_short_circuit {σ : Type} (run : Runner σ) (goos : String) (manager : StackManager)
    (dockerhub : DockerHub) (pre : List Registry) (r : Registry) (post : List Registry)
    (endpoint : Endpoint) (s : Exec σ)
    (hauth : r.Authentication = true)
    (hok : ∀ p ∈ outcomes run s.world
        (registryLogins (prepareDockerCommandAndArgs goos manager.binaryPath endpoint).1
          (prepareDockerCommandAndArgs goos manager.binaryPath endpoint).2 pre),
      p.outcome = .exited 0)
    (hfail : (run
        (worldAfter run s.world
          (registryLogins (prepareDockerCommandAndArgs goos manager.binaryPath endpoint).1
            (prepareDockerCommandAndArgs goos manager.binaryPath endpoint).2 pre))
        (registryLogin (prepareDockerCommandAndArgs goos manager.binaryPath endpoint).1
          (prepareDockerCommandAndArgs goos manager.binaryPath endpoint).2 r)).1.outcome
      ≠ .exited 0) :
    Login run goos manager dockerhub (pre ++ r :: post) endpoint s =
      (some ⟨(run
          (worldAfter run s.world
            (registryLogins (prepareDockerCommandAndArgs goos manager.binaryPath endpoint).1
              (prepareDockerCommandAndArgs goos manager.binaryPath endpoint).2 pre))
          (registryLogin (prepareDockerCommandAndArgs goos manager.binaryPath endpoint).1
            (prepareDockerCommandAndArgs goos manager.binaryPath endpoint).2 r)).1.stderr⟩,
       ⟨(run
          (worldAfter run s.world
            (registryLogins (prepareDockerCommandAndArgs goos manager.binaryPath endpoint).1
              (prepareDockerCommandAndArgs goos manager.binaryPath endpoint).2 pre))
          (registryLogin (prepareDockerCommandAndArgs goos manager.binaryPath endpoint).1
            (prepareDockerCommandAndArgs goos manager.binaryPath endpoint).2 r)).2,
        s.trace ++
          registryLogins (prepareDockerCommandAndArgs goos manager.binaryPath endpoint).1
            (prepareDockerCommandAndArgs goos manager.binaryPath endpoint).2 pre ++
          [registryLogin (prepareDockerCommandAndArgs goos manager.binaryPath endpoint).1
            (prepareDockerCommandAndArgs goos manager.binaryPath endpoint).2 r]⟩) ∧
    hubLogin (prepareDockerCommandAndArgs goos manager.binaryPath endpoint).1
        (prepareDockerCommandAndArgs goos manager.binaryPath endpoint).2 dockerhub ∉
      registryLogins (prepareDockerCommandAndArgs goos manager.binaryPath endpoint).1
          (prepareDockerCommandAndArgs goos manager.binaryPath endpoint).2 pre ++
        [registryLogin (prepareDockerCommandAndArgs goos manager.binaryPath endpoint).1
          (prepareDockerCommandAndArgs goos manager.binaryPath endpoint).2 r] := by
  constructor
  · unfold Login
    simp only []
    rw [loginRegistries_first_failure run _ _ pre r post s hauth hok hfail]
  · have h := hubLogin_not_mem_registryLogins
      (prepareDockerCommandAndArgs goos manager.binaryPath endpoint).1
      (prepareDockerCommandAndArgs goos manager.binaryPath endpoint).2 dockerhub (pre ++ [r])
    simpa [registryLogins, List.filter_append, hauth] using h

theorem Login_short_circuit_witness :
    Login (scriptedRunner 1 "unauthorized") "linux" ⟨"/usr/bin"⟩ ⟨true, "hubuser", "hubpw"⟩
        ([⟨"r1.example.com", true, "u1", "p1"⟩, ⟨"r2.example.com", false, "u2", "p2"⟩] ++
          ⟨"r3.example.com", true, "u3", "p3"⟩ :: [⟨"r4.example.com", true, "u4", "p4"⟩])
        ⟨"tcp://10.0.0.1:2375", ⟨false, false, "", "", ""⟩⟩ ⟨0, []⟩ =
      (some ⟨"unauthorized"⟩,
       ⟨2, [⟨"/usr/bin/docker", ["-H", "tcp://10.0.0.1:2375", "login", "--username", "u1",
              "--password", "p1", "r1.example.com"]⟩,
            ⟨"/usr/bin/docker", ["-H", "tcp://10.0.0.1:2375", "login", "--username", "u3",
              "--password", "p3", "r3.example.com"]⟩]⟩) :=
  (Login_short_circuit (scriptedRunner 1 "unauthorized") "linux" ⟨"/usr/bin"⟩
    ⟨true, "hubuser", "hubpw"⟩
    [⟨"r1.example.com", true, "u1", "p1"⟩, ⟨"r2.example.com", false, "u2", "p2"⟩]
    ⟨"r3.example.com", true, "u3", "p3"⟩ [⟨"r4.example.com", true, "u4", "p4"⟩]
    ⟨"tcp://10.0.0.1:2375", ⟨false, false, "", "", ""⟩⟩ ⟨0, []⟩
    rfl (by decide) (by decide)).1.trans (by decide)

/-- C6: when the hub credential has authentication enabled and every invocation
succeeds, `Login` makes one login per authentication-enabled registry, in list
order, with arguments base, `login`, `--username`, user, `--password`,
password, URL, then exactly one hub login with arguments base, `login`,
`--username`, user, `--password`, password and no URL, and returns success. -/
theorem Login_all_succeed {σ : Type} (run : Runner σ) (goos : String) (manager : StackManager)
    (dockerhub : DockerHub) (registries : List Registry) (endpoint : Endpoint) (s : Exec σ)
    (hhub : dockerhub.Authentication = true)
    (hok : ∀ p ∈ outcomes run s.world
        (registryLogins (prepareDockerCommandAndArgs goos manager.binaryPath endpoint).1
            (prepareDockerCommandAndArgs goos manager.binaryPath endpoint).2 registries ++
          [hubLogin (prepareDockerCommandAndArgs goos manager.binaryPath endpoint).1
            (prepareDockerCommandAndArgs goos manager.binaryPath endpoint).2 dockerhub]),
      p.outcome = .exited 0) :
    Login run goos manager dockerhub registries endpoint s =
      (none,
       ⟨worldAfter run s.world
          (registryLogins (prepareDockerCommandAndArgs goos manager.binaryPath endpoint).1
              (prepareDockerCommandAndArgs goos manager.binaryPath endpoint).2 registries ++
            [hubLogin (prepareDockerCommandAndArgs goos manager.binaryPath endpoint).1
              (prepareDockerCommandAndArgs goos manager.binaryPath endpoint).2 dockerhub]),
        s.trace ++
          (registryLogins (prepareDockerCommandAndArgs goos manager.binaryPath endpoint).1
              (prepareDockerCommandAndArgs goos manager.binaryPath endpoint).2 registries ++
            [hubLogin (prepareDockerCommandAndArgs goos manager.binaryPath endpoint).1
              (prepareDockerCommandAndArgs goos manager.binaryPath endpoint).2 dockerhub])⟩) := by
  rw [outcomes_append] at hok
  simp only [List.mem_append, outcomes, List.mem_singleton] at hok
  have hregs := fun p hp => hok p (Or.inl hp)
  have hhubok := hok _ (Or.inr rfl)
  unfold Login
  simp only []
  rw [loginRegistries_all_succeed run _ _ registries s hregs]
  simp only [hhub, if_true]
  have h1 := runCommand_succeeds run
    (prepareDockerCommandAndArgs goos manager.binaryPath endpoint).1
    ((prepareDockerCommandAndArgs goos manager.binaryPath endpoint).2 ++
      ["login", "--username", dockerhub.Username, "--password", dockerhub.Password])
    ⟨worldAfter run s.world
        (registryLogins (prepareDockerCommandAndArgs goos manager.binaryPath endpoint).1
          (prepareDockerCommandAndArgs goos manager.binaryPath endpoint).2 registries),
      s.trace ++ registryLogins (prepareDockerCommandAndArgs goos manager.binaryPath endpoint).1
          (prepareDockerCommandAndArgs goos manager.binaryPath endpoint).2 registries⟩
    hhubok
  simp only [h1]
  simp [worldAfter_append, worldAfter, hubLogin]

theorem Login_all_succeed_witness :
    Login (scriptedRunner 7 "never") "linux" ⟨"/usr/bin"⟩ ⟨true, "hubuser", "hubpw"⟩
        [⟨"r1.example.com", true, "u1", "p1"⟩, ⟨"r2.example.com", false, "u2", "p2"⟩,
          ⟨"r3.example.com", true, "u3", "p3"⟩]
        ⟨"tcp://10.0.0.1:2376", ⟨true, true, "", "", ""⟩⟩ ⟨0, []⟩ =
      (none,
       ⟨3, [⟨"/usr/bin/docker", ["-H", "tcp://10.0.0.1:2376", "--tls", "login", "--username",
              "u1", "--password", "p1", "r1.example.com"]⟩,
            ⟨"/usr/bin/docker", ["-H", "tcp://10.0.0.1:2376", "--tls", "login", "--username",
              "u3", "--password", "p3", "r3.example.com"]⟩,
            ⟨"/usr/bin/docker", ["-H", "tcp://10.0.0.1:2376", "--tls", "login", "--username",
              "hubuser", "--password", "hubpw"]⟩]⟩) :=
  (Login_all_succeed (scriptedRunner 7 "never") "linux" ⟨"/usr/bin"⟩ ⟨true, "hubuser", "hubpw"⟩
    [⟨"r1.example.com", true, "u1", "p1"⟩, ⟨"r2.example.com", false, "u2", "p2"⟩,
      ⟨"r3.example.com", true, "u3", "p3"⟩]
    ⟨"tcp://10.0.0.1:2376", ⟨true, true, "", "", ""⟩⟩ ⟨0, []⟩ rfl (by decide)).trans (by decide)

/-- C7: `Deploy` makes exactly one invocation, on the executable path of the
builder, with arguments base, `stack`, `deploy`, `--with-registry-auth`,
`--compose-file`, the join of the project path and the entry point, and the
stack name; the stack name is the last token and the joined path directly
follows `--compose-file`. -/
theorem Deploy_invocation {σ : Type} (run : Runner σ) (goos : String) (manager : StackManager)
    (stack : Stack) (endpoint : Endpoint) (s : Exec σ) :
    ∃ inv : Invocation,
      (Deploy run goos manager stack endpoint s).2.trace = s.trace ++ [inv] ∧
      inv.command = (prepareDockerCommandAndArgs goos manager.binaryPath endpoint).1 ∧
      inv.args = (prepareDockerCommandAndArgs goos manager.binaryPath endpoint).2 ++
        ["stack", "deploy", "--with-registry-auth", "--compose-file",
          pathJoin [stack.ProjectPath, stack.EntryPoint], stack.Name] ∧
      inv.args.getLast? = some stack.Name ∧
      inv.args[(prepareDockerCommandAndArgs goos manager.binaryPath endpoint).2.length + 3]? =
        some "--compose-file" ∧
      inv.args[(prepareDockerCommandAndArgs goos manager.binaryPath endpoint).2.length + 4]? =
        some (pathJoin [stack.ProjectPath, stack.EntryPoint]) := by
  refine ⟨⟨(prepareDockerCommandAndArgs goos manager.binaryPath endpoint).1,
    (prepareDockerCommandAndArgs goos manager.binaryPath endpoint).2 ++
      ["stack", "deploy", "--with-registry-auth", "--compose-file",
        pathJoin [stack.ProjectPath, stack.EntryPoint], stack.Name]⟩, ?_, rfl, rfl, ?_, ?_, ?_⟩
  · unfold Deploy
    simp only []
    rw [runCommand_eq]
  · simp [List.getLast?_append]
  · rw [List.getElem?_append_right (Nat.le_add_right _ _), Nat.add_sub_cancel_left]
    rfl
  · rw [List.getElem?_append_right (Nat.le_add_right _ _), Nat.add_sub_cancel_left]
    rfl

/-- C10: `Logout` and `Remove` each make exactly one invocation on the
executable path of the builder, with arguments base, `logout` for `Logout` and
base, `stack`, `rm`, stack name for `Remove`, and return the outcome of that
invocation: success when the process exited with status zero, otherwise the
error carrying its standard-error text. -/
theorem Logout_Remove_single_invocation {σ : Type} (run : Runner σ) (goos : String)
    (manager : StackManager) (stack : Stack) (endpoint : Endpoint) (s : Exec σ) :
    Logout run goos manager endpoint s =
      (if (run s.world ⟨(prepareDockerCommandAndArgs goos manager.binaryPath endpoint).1,
            (prepareDockerCommandAndArgs goos manager.binaryPath endpoint).2 ++ ["logout"]⟩).1.outcome
          = .exited 0 then none
        else some ⟨(run s.world ⟨(prepareDockerCommandAndArgs goos manager.binaryPath endpoint).1,
            (prepareDockerCommandAndArgs goos manager.binaryPath endpoint).2 ++ ["logout"]⟩).1.stderr⟩,
       ⟨(run s.world ⟨(prepareDockerCommandAndArgs goos manager.binaryPath endpoint).1,
            (prepareDockerCommandAndArgs goos manager.binaryPath endpoint).2 ++ ["logout"]⟩).2,
        s.trace ++ [⟨(prepareDockerCommandAndArgs goos manager.binaryPath endpoint).1,
            (prepareDockerCommandAndArgs goos manager.binaryPath endpoint).2 ++ ["logout"]⟩]⟩) ∧
    Remove run goos manager stack endpoint s =
      (if (run s.world ⟨(prepareDockerCommandAndArgs goos manager.binaryPath endpoint).1,
            (prepareDockerCommandAndArgs goos manager.binaryPath endpoint).2 ++
              ["stack", "rm", stack.Name]⟩).1.outcome = .exited 0 then none
        else some ⟨(run s.world ⟨(prepareDockerCommandAndArgs goos manager.binaryPath endpoint).1,
            (prepareDockerCommandAndArgs goos manager.binaryPath endpoint).2 ++
              ["stack", "rm", stack.Name]⟩).1.stderr⟩,
       ⟨(run s.world ⟨(prepareDockerCommandAndArgs goos manager.binaryPath endpoint).1,
            (prepareDockerCommandAndArgs goos manager.binaryPath endpoint).2 ++
              ["stack", "rm", stack.Name]⟩).2,
        s.trace ++ [⟨(prepareDockerCommandAndArgs goos manager.binaryPath endpoint).1,
            (prepareDockerCommandAndArgs goos manager.binaryPath endpoint).2 ++
              ["stack", "rm", stack.Name]⟩]⟩) := by
  constructor
  · unfold Logout
    simp only []
    rw [runCommand_eq]
  · unfold Remove
    simp only []
    rw [runCommand_eq]

end StackManagerModel
